import Mathlib

/-!
Shallow embedding of the OTP issuance/verification helper of the E-consult
repository (src/src/integrations/otp/otpService.ts) and of the thin HTTP
endpoint that drives it (src/src/pages/api/otp.ts).

Modelling choices:
* timestamps are natural numbers (milliseconds, like Date.now());
* the in-memory mapping otpStorage is a function from email to an optional
  record, with pointwise update and removal mirroring assignment and delete;
* Math.random() is a rational parameter r with 0 <= r < 1;
* the five distinct throw sites become the five constructors of OtpError;
* the axios delivery call is a boolean parameter deliveryOk: the issue
  operation records whether the gateway was invoked and fails with the
  delivery error exactly when the call was made and failed.
-/

namespace EConsult

/-- OTP_EXPIRY_TIME = 5 * 60 * 1000 milliseconds, as in otpService.ts. -/
def OTP_EXPIRY_TIME : ℕ := 5 * 60 * 1000

/-- A stored OTP record: the value otpStorage[email] in otpService.ts. -/
structure OtpRecord where
  otp : String
  expiry : ℕ
deriving DecidableEq, Repr

/-- The in-memory mapping from email to record, otpStorage in otpService.ts. -/
def OtpStorage : Type := String → Option OtpRecord

/-- The initial, empty mapping. -/
def emptyStorage : OtpStorage := fun _ => none

/-- Assignment otpStorage[email] = rec. -/
def OtpStorage.set (st : OtpStorage) (email : String) (rec : OtpRecord) : OtpStorage :=
  fun e => if e = email then some rec else st e

/-- Removal, delete otpStorage[email]. -/
def OtpStorage.erase (st : OtpStorage) (email : String) : OtpStorage :=
  fun e => if e = email then none else st e

/-- The five distinct error messages thrown by otpService.ts, one constructor
per throw site: invalid subject, delivery failure, no record, expired record,
code mismatch. -/
inductive OtpError where
  | invalidSubject
  | delivery
  | notFound
  | expired
  | mismatch
deriving DecidableEq, Repr

/-- The numeric value Math.floor(100000 + r * 900000) computed by generateOtp,
with the random draw r made explicit. -/
def generateOtpNat (r : ℚ) : ℕ :=
  Int.toNat ⌊(100000 : ℚ) + r * 900000⌋

/-- Fuel-driven little-endian list of base-10 digits of a natural number. -/
def decDigitsGo : ℕ → ℕ → List ℕ
  | 0, _ => []
  | fuel + 1, n => if n = 0 then [] else n % 10 :: decDigitsGo fuel (n / 10)

/-- Little-endian base-10 digits of a natural number; the fuel n + 1 always
suffices because the argument shrinks at every step. -/
def decDigits (n : ℕ) : List ℕ := decDigitsGo (n + 1) n

/-- Decimal rendering of a natural number, the meaning of Number.toString()
on a nonnegative integer: most-significant digit first. -/
def natToDecStr (n : ℕ) : String :=
  ⟨(decDigits n).reverse.map fun d => Char.ofNat (48 + d)⟩

/-- The numeric value denoted by a decimal digit string, used to state that
the generated code's integer value is in range. -/
def decStrVal (s : String) : ℕ :=
  s.data.foldl (fun a c => 10 * a + (c.toNat - 48)) 0

/-- generateOtp from otpService.ts:
Math.floor(100000 + Math.random() * 900000).toString(). -/
def generateOtp (r : ℚ) : String :=
  natToDecStr (generateOtpNat r)

/-- The outcome of generateAndSendOtp: the thrown error or normal return,
the mapping afterwards, and whether the delivery gateway (sendOtp) was
invoked. -/
structure IssueResult where
  result : Except OtpError Unit
  storage : OtpStorage
  gatewayCalled : Bool

/-- JavaScript String.prototype.endsWith on our strings: the suffix's
characters are a suffix of the subject's characters. -/
def strEndsWith (s suffix : String) : Bool :=
  suffix.data.isSuffixOf s.data

/-- generateAndSendOtp from otpService.ts. The email must end with
"@gmail.com"; otherwise the invalid-subject error is thrown before any state
change. On a valid email the record is stored first and sendOtp is invoked
afterwards; a failed delivery throws but does not roll the record back. -/
def generateAndSendOtp (st : OtpStorage) (now : ℕ) (r : ℚ) (deliveryOk : Bool)
    (email : String) : IssueResult :=
  if !strEndsWith email "@gmail.com" then
    ⟨Except.error OtpError.invalidSubject, st, false⟩
  else
    let otp := generateOtp r
    let expiry := now + OTP_EXPIRY_TIME
    let st1 := st.set email ⟨otp, expiry⟩
    if deliveryOk then ⟨Except.ok (), st1, true⟩
    else ⟨Except.error OtpError.delivery, st1, true⟩

/-- The outcome of verifyOtp: the thrown error or returned boolean, and the
mapping afterwards. -/
structure VerifyResult where
  result : Except OtpError Bool
  storage : OtpStorage

/-- verifyOtp from otpService.ts: look up the record; throw notFound if
absent; if record.expiry < now, delete and throw expired; if the codes
differ, throw mismatch leaving the record in place; otherwise delete and
return true. -/
def verifyOtp (st : OtpStorage) (now : ℕ) (email otp : String) : VerifyResult :=
  match st email with
  | none => ⟨Except.error OtpError.notFound, st⟩
  | some record =>
    if record.expiry < now then
      ⟨Except.error OtpError.expired, st.erase email⟩
    else if record.otp ≠ otp then
      ⟨Except.error OtpError.mismatch, st⟩
    else
      ⟨Except.ok true, st.erase email⟩

/-- An HTTP request as the handler in pages/api/otp.ts sees it: the method
string and the two body fields, each either absent or a string value. -/
structure ApiRequest where
  method : String
  email : Option String
  otp : Option String

/-- JavaScript truthiness of an optional string field: absent and the empty
string are falsy, every other string is truthy. -/
def truthy : Option String → Bool
  | none => false
  | some s => !s.isEmpty

/-- Which service operation the handler invoked, if any. -/
inductive ApiCall where
  | noCall
  | issueCall (email : String)
  | verifyCall (email otp : String)
deriving DecidableEq, Repr

/-- The observable outcome of the handler: HTTP status, the Allow header if
set, the service call made, and the mapping afterwards. -/
structure ApiResponse where
  status : ℕ
  allowHeader : Option (List String)
  call : ApiCall
  storage : OtpStorage

/-- The default export of pages/api/otp.ts. POST with a falsy email is a 400;
POST with a truthy otp field verifies, otherwise it issues; any thrown
service error becomes a 500; any other method is a 405 with Allow: POST. -/
def handler (req : ApiRequest) (st : OtpStorage) (now : ℕ) (r : ℚ)
    (deliveryOk : Bool) : ApiResponse :=
  if req.method = "POST" then
    if !truthy req.email then
      ⟨400, none, ApiCall.noCall, st⟩
    else
      let email := req.email.getD ""
      if truthy req.otp then
        let otp := req.otp.getD ""
        let v := verifyOtp st now email otp
        match v.result with
        | Except.ok _ => ⟨200, none, ApiCall.verifyCall email otp, v.storage⟩
        | Except.error _ => ⟨500, none, ApiCall.verifyCall email otp, v.storage⟩
      else
        let i := generateAndSendOtp st now r deliveryOk email
        match i.result with
        | Except.ok _ => ⟨200, none, ApiCall.issueCall email, i.storage⟩
        | Except.error _ => ⟨500, none, ApiCall.issueCall email, i.storage⟩
  else
    ⟨405, some ["POST"], ApiCall.noCall, st⟩

/-! Helper lemmas shared by the claim theorems. -/

lemma decDigitsGo_eq (fuel n : ℕ) (h : n < fuel) :
    decDigitsGo fuel n = Nat.digits 10 n := by
  induction fuel generalizing n with
  | zero => omega
  | succ f ih =>
    by_cases hn : n = 0
    · subst hn; simp [decDigitsGo]
    · have hdiv : n / 10 < n := Nat.div_lt_self (Nat.pos_of_ne_zero hn) (by norm_num)
      rw [decDigitsGo, if_neg hn, ih (n / 10) (by omega)]
      exact (Nat.digits_def' (by norm_num) (Nat.pos_of_ne_zero hn)).symm

lemma decDigits_eq (n : ℕ) : decDigits n = Nat.digits 10 n :=
  decDigitsGo_eq (n + 1) n (Nat.lt_succ_self n)

lemma toNat_digitChar (d : ℕ) (hd : d < 10) : (Char.ofNat (48 + d)).toNat = 48 + d := by
  interval_cases d <;> decide

lemma isDigit_digitChar (d : ℕ) (hd : d < 10) : (Char.ofNat (48 + d)).isDigit = true := by
  interval_cases d <;> decide

lemma foldr_eq_ofDigits (l : List ℕ) :
    l.foldr (fun d a => 10 * a + d) 0 = Nat.ofDigits 10 l := by
  induction l with
  | nil => simp [Nat.ofDigits]
  | cons d l ih => simp [Nat.ofDigits_cons, ih]; omega

lemma decStrVal_natToDecStr (n : ℕ) : decStrVal (natToDecStr n) = n := by
  show List.foldl _ 0 ((decDigits n).reverse.map fun d => Char.ofNat (48 + d)) = n
  rw [decDigits_eq, List.foldl_map]
  have hext :
      List.foldl (fun (a d : ℕ) => 10 * a + ((Char.ofNat (48 + d)).toNat - 48)) 0
          (Nat.digits 10 n).reverse =
        List.foldl (fun a d => 10 * a + d) 0 (Nat.digits 10 n).reverse := by
    refine List.foldl_ext _ _ _ ?_
    intro a d hd
    rw [List.mem_reverse] at hd
    rw [toNat_digitChar d (Nat.digits_lt_base (by norm_num) hd)]
    omega
  rw [hext, List.foldl_reverse, foldr_eq_ofDigits, Nat.ofDigits_digits]

lemma digits_len_six (n : ℕ) (h1 : 100000 ≤ n) (h2 : n ≤ 999999) :
    (Nat.digits 10 n).length = 6 := by
  have hn : n ≠ 0 := by omega
  rw [Nat.digits_len 10 n (by norm_num) hn]
  have hlog : Nat.log 10 n = 5 :=
    Nat.log_eq_of_pow_le_of_lt_pow (by norm_num; omega) (by norm_num; omega)
  omega

lemma generateOtpNat_bounds (r : ℚ) (h0 : 0 ≤ r) (h1 : r < 1) :
    100000 ≤ generateOtpNat r ∧ generateOtpNat r ≤ 999999 := by
  unfold generateOtpNat
  have hlb : (100000 : ℚ) ≤ 100000 + r * 900000 := by nlinarith
  have hub : (100000 : ℚ) + r * 900000 < 1000000 := by nlinarith
  have hfl : (100000 : ℤ) ≤ ⌊(100000 : ℚ) + r * 900000⌋ := by
    refine Int.le_floor.mpr ?_
    exact_mod_cast hlb
  have hfu : ⌊(100000 : ℚ) + r * 900000⌋ < 1000000 := by
    refine Int.floor_lt.mpr ?_
    exact_mod_cast hub
  omega

lemma set_self (st : OtpStorage) (email : String) (rec : OtpRecord) :
    st.set email rec email = some rec := by
  simp [OtpStorage.set]

lemma erase_self (st : OtpStorage) (email : String) :
    st.erase email email = none := by
  simp [OtpStorage.erase]

lemma issue_storage_valid (st : OtpStorage) (now : ℕ) (r : ℚ) (d : Bool)
    (email : String) (hv : strEndsWith email "@gmail.com" = true) :
    (generateAndSendOtp st now r d email).storage =
      st.set email ⟨generateOtp r, now + OTP_EXPIRY_TIME⟩ := by
  cases d <;> simp [generateAndSendOtp, hv]

/-! The claim theorems. -/

/-- Claim C1: for every subject accepted by the domain allowlist, issue
followed by verify with the exact stored code, strictly before the record's
expiresAt, returns true and removes the subject's record from the mapping. -/
theorem issue_then_verify_consumes (st : OtpStorage) (now nowV : ℕ) (r : ℚ)
    (d : Bool) (email : String)
    (hv : strEndsWith email "@gmail.com" = true)
    (ht : nowV < now + OTP_EXPIRY_TIME) :
    verifyOtp (generateAndSendOtp st now r d email).storage nowV email (generateOtp r) =
      ⟨Except.ok true, ((generateAndSendOtp st now r d email).storage).erase email⟩ ∧
    (verifyOtp (generateAndSendOtp st now r d email).storage nowV email
        (generateOtp r)).storage email = none := by
  rw [issue_storage_valid st now r d email hv]
  have hrec := set_self st email ⟨generateOtp r, now + OTP_EXPIRY_TIME⟩
  have h1 : ¬ (now + OTP_EXPIRY_TIME < nowV) := by omega
  constructor
  · simp [verifyOtp, hrec, h1]
  · simp [verifyOtp, hrec, h1, erase_self]

/-- Claim C1 witness at a concrete subject, time and random draw. -/
theorem issue_then_verify_consumes_witness :
    verifyOtp (generateAndSendOtp emptyStorage 0 0 true "a@gmail.com").storage 1
        "a@gmail.com" (generateOtp 0) =
      ⟨Except.ok true,
        ((generateAndSendOtp emptyStorage 0 0 true "a@gmail.com").storage).erase
          "a@gmail.com"⟩ ∧
    (verifyOtp (generateAndSendOtp emptyStorage 0 0 true "a@gmail.com").storage 1
        "a@gmail.com" (generateOtp 0)).storage "a@gmail.com" = none :=
  issue_then_verify_consumes emptyStorage 0 1 0 true "a@gmail.com" (by decide) (by decide)

/-- Claim C2: verify fails with the not-found error whenever the subject has
no live record, both when none was ever stored and right after a successful
verify consumed it. -/
theorem verify_without_record (st : OtpStorage) (now nowV : ℕ)
    (email cand cand2 : String) :
    (st email = none →
      verifyOtp st now email cand = ⟨Except.error OtpError.notFound, st⟩) ∧
    ((verifyOtp st now email cand).result = Except.ok true →
      (verifyOtp (verifyOtp st now email cand).storage nowV email cand2).result =
        Except.error OtpError.notFound) := by
  constructor
  · intro h
    simp [verifyOtp, h]
  · intro h
    rcases hrec : st email with _ | rec
    · simp [verifyOtp, hrec] at h
    · by_cases hexp : rec.expiry < now
      · simp [verifyOtp, hrec, hexp] at h
      · by_cases hne : rec.otp ≠ cand
        · simp [verifyOtp, hrec, hexp, hne] at h
        · simp [verifyOtp, hrec, hexp, hne, erase_self]

/-- Claim C2 witness: no record on the empty mapping, and a second verify
right after a successful one. -/
theorem verify_without_record_witness :
    verifyOtp emptyStorage 0 "a@gmail.com" "000000" =
      ⟨Except.error OtpError.notFound, emptyStorage⟩ ∧
    (verifyOtp (verifyOtp (emptyStorage.set "a@gmail.com" ⟨"123456", 100⟩) 1
        "a@gmail.com" "123456").storage 2 "a@gmail.com" "123456").result =
      Except.error OtpError.notFound :=
  ⟨(verify_without_record emptyStorage 0 2 "a@gmail.com" "000000" "000000").1 rfl,
   (verify_without_record (emptyStorage.set "a@gmail.com" ⟨"123456", 100⟩) 1 2
      "a@gmail.com" "123456" "123456").2 (by rfl)⟩

/-- Claim C3: a record whose expiry lies strictly in the past is removed by
verify and the expired error is reported, for every candidate code. -/
theorem verify_expired_discards (st : OtpStorage) (now : ℕ) (email cand : String)
    (rec : OtpRecord) (hrec : st email = some rec) (hexp : rec.expiry < now) :
    verifyOtp st now email cand = ⟨Except.error OtpError.expired, st.erase email⟩ ∧
    (verifyOtp st now email cand).storage email = none := by
  simp [verifyOtp, hrec, hexp, erase_self]

/-- Claim C3 witness: an expired record, probed with the matching code. -/
theorem verify_expired_discards_witness :
    verifyOtp (emptyStorage.set "a@gmail.com" ⟨"123456", 100⟩) 101 "a@gmail.com"
        "123456" =
      ⟨Except.error OtpError.expired,
        (emptyStorage.set "a@gmail.com" ⟨"123456", 100⟩).erase "a@gmail.com"⟩ ∧
    (verifyOtp (emptyStorage.set "a@gmail.com" ⟨"123456", 100⟩) 101 "a@gmail.com"
        "123456").storage "a@gmail.com" = none :=
  verify_expired_discards (emptyStorage.set "a@gmail.com" ⟨"123456", 100⟩) 101
    "a@gmail.com" "123456" ⟨"123456", 100⟩ (by decide) (by decide)

/-- Claim C4: a wrong candidate code on a live, unexpired record yields the
mismatch error and leaves the mapping unchanged, so the correct code still
verifies afterwards. -/
theorem verify_mismatch_preserves (st : OtpStorage) (now nowV : ℕ)
    (email cand : String) (rec : OtpRecord) (hrec : st email = some rec)
    (hexp : ¬ rec.expiry < now) (hne : cand ≠ rec.otp)
    (hexp2 : ¬ rec.expiry < nowV) :
    verifyOtp st now email cand = ⟨Except.error OtpError.mismatch, st⟩ ∧
    (verifyOtp st nowV email rec.otp).result = Except.ok true := by
  constructor
  · simp [verifyOtp, hrec, hexp, Ne.symm hne]
  · simp [verifyOtp, hrec, hexp2]

/-- Claim C4 witness: a wrong guess followed by the right code. -/
theorem verify_mismatch_preserves_witness :
    verifyOtp (emptyStorage.set "a@gmail.com" ⟨"123456", 100⟩) 1 "a@gmail.com"
        "999999" =
      ⟨Except.error OtpError.mismatch, emptyStorage.set "a@gmail.com" ⟨"123456", 100⟩⟩ ∧
    (verifyOtp (emptyStorage.set "a@gmail.com" ⟨"123456", 100⟩) 2 "a@gmail.com"
        "123456").result = Except.ok true :=
  verify_mismatch_preserves (emptyStorage.set "a@gmail.com" ⟨"123456", 100⟩) 1 2
    "a@gmail.com" "999999" ⟨"123456", 100⟩ (by decide) (by decide) (by decide)
    (by decide)

/-- Claim C5: a subject outside the domain allowlist makes issue fail with the
invalid-subject error, with the mapping unchanged and the gateway never
invoked. -/
theorem issue_invalid_subject (st : OtpStorage) (now : ℕ) (r : ℚ) (d : Bool)
    (email : String) (h : strEndsWith email "@gmail.com" = false) :
    generateAndSendOtp st now r d email =
      ⟨Except.error OtpError.invalidSubject, st, false⟩ := by
  simp [generateAndSendOtp, h]

/-- Claim C5 witness: an address on a foreign domain. -/
theorem issue_invalid_subject_witness :
    generateAndSendOtp emptyStorage 0 0 true "user@example.com" =
      ⟨Except.error OtpError.invalidSubject, emptyStorage, false⟩ :=
  issue_invalid_subject emptyStorage 0 0 true "user@example.com" (by decide)

/-- Claim C6: a failed delivery makes issue fail with the delivery error but
the record stored beforehand stays in the mapping, so the generated code
still verifies before expiry. -/
theorem issue_delivery_failure_keeps_record (st : OtpStorage) (now nowV : ℕ)
    (r : ℚ) (email : String) (hv : strEndsWith email "@gmail.com" = true)
    (ht : nowV < now + OTP_EXPIRY_TIME) :
    (generateAndSendOtp st now r false email).result =
      Except.error OtpError.delivery ∧
    (generateAndSendOtp st now r false email).storage email =
      some ⟨generateOtp r, now + OTP_EXPIRY_TIME⟩ ∧
    (verifyOtp (generateAndSendOtp st now r false email).storage nowV email
        (generateOtp r)).result = Except.ok true := by
  have h1 : ¬ (now + OTP_EXPIRY_TIME < nowV) := by omega
  refine ⟨by simp [generateAndSendOtp, hv], ?_, ?_⟩
  · rw [issue_storage_valid st now r false email hv]
    exact set_self st email ⟨generateOtp r, now + OTP_EXPIRY_TIME⟩
  · rw [issue_storage_valid st now r false email hv]
    have hrec := set_self st email ⟨generateOtp r, now + OTP_EXPIRY_TIME⟩
    simp [verifyOtp, hrec, h1]

/-- Claim C6 witness: delivery fails at a concrete subject and time. -/
theorem issue_delivery_failure_keeps_record_witness :
    (generateAndSendOtp emptyStorage 0 0 false "a@gmail.com").result =
      Except.error OtpError.delivery ∧
    (generateAndSendOtp emptyStorage 0 0 false "a@gmail.com").storage "a@gmail.com" =
      some ⟨generateOtp 0, 0 + OTP_EXPIRY_TIME⟩ ∧
    (verifyOtp (generateAndSendOtp emptyStorage 0 0 false "a@gmail.com").storage 1
        "a@gmail.com" (generateOtp 0)).result = Except.ok true :=
  issue_delivery_failure_keeps_record emptyStorage 0 1 0 "a@gmail.com" (by decide)
    (by decide)

/-- Claim C7: for every random draw in the unit interval the generated code is
a six-character string of decimal digits whose integer value lies between
100000 and 999999 inclusive. -/
theorem generateOtp_six_digit_code (r : ℚ) (h0 : 0 ≤ r) (h1 : r < 1) :
    100000 ≤ generateOtpNat r ∧ generateOtpNat r ≤ 999999 ∧
    (generateOtp r).length = 6 ∧
    ((generateOtp r).data.all fun c => c.isDigit) = true ∧
    decStrVal (generateOtp r) = generateOtpNat r := by
  obtain ⟨hl, hu⟩ := generateOtpNat_bounds r h0 h1
  refine ⟨hl, hu, ?_, ?_, decStrVal_natToDecStr _⟩
  · show ((decDigits (generateOtpNat r)).reverse.map fun d => Char.ofNat (48 + d)).length = 6
    rw [List.length_map, List.length_reverse, decDigits_eq]
    exact digits_len_six _ hl hu
  · rw [List.all_eq_true]
    intro c hc
    have hmem : c ∈ (decDigits (generateOtpNat r)).reverse.map
        fun d => Char.ofNat (48 + d) := hc
    rw [decDigits_eq, List.mem_map] at hmem
    obtain ⟨d, hd, rfl⟩ := hmem
    rw [List.mem_reverse] at hd
    exact isDigit_digitChar d (Nat.digits_lt_base (by norm_num) hd)

/-- Claim C7 witness at the draw zero. -/
theorem generateOtp_six_digit_code_witness :
    100000 ≤ generateOtpNat 0 ∧ generateOtpNat 0 ≤ 999999 ∧
    (generateOtp 0).length = 6 ∧
    ((generateOtp 0).data.all fun c => c.isDigit) = true ∧
    decStrVal (generateOtp 0) = generateOtpNat 0 :=
  generateOtp_six_digit_code 0 le_rfl zero_lt_one

/-- Claim C8: issuing twice for the same subject overwrites the first record;
with distinct codes the first code now fails with the mismatch error while
the second code verifies before expiry. -/
theorem issue_twice_overwrites (st : OtpStorage) (now1 now2 nowV : ℕ)
    (r1 r2 : ℚ) (d1 d2 : Bool) (email : String)
    (hv : strEndsWith email "@gmail.com" = true)
    (hne : generateOtp r1 ≠ generateOtp r2)
    (ht : nowV < now2 + OTP_EXPIRY_TIME) :
    (generateAndSendOtp (generateAndSendOtp st now1 r1 d1 email).storage now2 r2 d2
        email).storage email = some ⟨generateOtp r2, now2 + OTP_EXPIRY_TIME⟩ ∧
    (verifyOtp (generateAndSendOtp (generateAndSendOtp st now1 r1 d1 email).storage
        now2 r2 d2 email).storage nowV email (generateOtp r1)).result =
      Except.error OtpError.mismatch ∧
    (verifyOtp (generateAndSendOtp (generateAndSendOtp st now1 r1 d1 email).storage
        now2 r2 d2 email).storage nowV email (generateOtp r2)).result =
      Except.ok true := by
  rw [issue_storage_valid _ now2 r2 d2 email hv]
  have hrec := set_self (generateAndSendOtp st now1 r1 d1 email).storage email
    ⟨generateOtp r2, now2 + OTP_EXPIRY_TIME⟩
  have h1 : ¬ (now2 + OTP_EXPIRY_TIME < nowV) := by omega
  refine ⟨hrec, ?_, ?_⟩
  · simp [verifyOtp, hrec, h1, Ne.symm hne]
  · simp [verifyOtp, hrec, h1]

/-- Claim C8 witness: two issuances whose draws yield distinct codes. -/
theorem issue_twice_overwrites_witness :
    (generateAndSendOtp (generateAndSendOtp emptyStorage 0 0 true "a@gmail.com").storage
        10 ((1 : ℚ)/2) true "a@gmail.com").storage "a@gmail.com" =
      some ⟨generateOtp ((1 : ℚ)/2), 10 + OTP_EXPIRY_TIME⟩ ∧
    (verifyOtp (generateAndSendOtp
        (generateAndSendOtp emptyStorage 0 0 true "a@gmail.com").storage 10
        ((1 : ℚ)/2) true "a@gmail.com").storage 11 "a@gmail.com"
        (generateOtp 0)).result = Except.error OtpError.mismatch ∧
    (verifyOtp (generateAndSendOtp
        (generateAndSendOtp emptyStorage 0 0 true "a@gmail.com").storage 10
        ((1 : ℚ)/2) true "a@gmail.com").storage 11 "a@gmail.com"
        (generateOtp ((1 : ℚ)/2))).result = Except.ok true :=
  issue_twice_overwrites emptyStorage 0 10 11 0 ((1 : ℚ)/2) true true "a@gmail.com"
    (by decide)
    (by
      have e1 : generateOtpNat 0 = 100000 := by
        norm_num [generateOtpNat]
        decide
      have e2 : generateOtpNat ((1 : ℚ)/2) = 550000 := by
        norm_num [generateOtpNat]
        decide
      simp only [generateOtp, e1, e2]
      decide)
    (by decide)

/-- Claim C9: a request whose method is not POST is answered 405 with the
Allow header set to POST only, and neither service operation is invoked. -/
theorem handler_method_not_allowed (req : ApiRequest) (st : OtpStorage)
    (now : ℕ) (r : ℚ) (d : Bool) (h : req.method ≠ "POST") :
    handler req st now r d = ⟨405, some ["POST"], ApiCall.noCall, st⟩ := by
  simp [handler, h]

/-- Claim C9 witness: a GET request. -/
theorem handler_method_not_allowed_witness :
    handler ⟨"GET", none, none⟩ emptyStorage 0 0 true =
      ⟨405, some ["POST"], ApiCall.noCall, emptyStorage⟩ :=
  handler_method_not_allowed ⟨"GET", none, none⟩ emptyStorage 0 0 true (by decide)

/-- Claim C10: a POST whose body has a truthy email and an absent or falsy
otp field takes the issuance path, never the verification path. -/
theorem handler_falsy_otp_issues (req : ApiRequest) (st : OtpStorage)
    (now : ℕ) (r : ℚ) (d : Bool) (hm : req.method = "POST")
    (he : truthy req.email = true) (ho : req.otp = none ∨ req.otp = some "") :
    (handler req st now r d).call = ApiCall.issueCall (req.email.getD "") := by
  have hot : truthy req.otp = false := by
    rcases ho with h | h
    · simp [truthy, h]
    · rw [h]; decide
  rcases hres : (generateAndSendOtp st now r d (req.email.getD "")).result with _ | _ <;>
    simp [handler, hm, he, hot, hres]

/-- Claim C10 witness: a POST with an email and an empty otp field. -/
theorem handler_falsy_otp_issues_witness :
    (handler ⟨"POST", some "a@gmail.com", some ""⟩ emptyStorage 0 0 true).call =
      ApiCall.issueCall "a@gmail.com" :=
  handler_falsy_otp_issues ⟨"POST", some "a@gmail.com", some ""⟩ emptyStorage 0 0
    true rfl (by decide) (Or.inr rfl)

end EConsult
